import Mathlib

/-!
Verification of `elastalert/create_index.py`.

The script is embedded shallowly:

* the argparse stage (`parseArgs`) merges the command line with the
  environment-variable defaults it installs;
* the file-present configuration resolution (`resolveFileMode`) mirrors the
  `if filename:` branch of `main`, including Python truthiness where the
  source uses `x if x else ...`;
* the `Auth` selection (absent from the sources, modelled from the spec);
* the provisioning workflow (`provision`) is embedded as a trace of external
  calls together with a completion flag; an uncaught client exception stops
  the run, so every call after a failing one is absent from the trace.
-/

/-- Command-line options exactly as the user typed them (before argparse
installs its defaults).  `none` means the flag was not given. -/
structure Cli where
  host : Option String
  port : Option Nat
  username : Option String
  password : Option String
  urlPref : Option String
  ssl : Option Bool
  verify_certs : Option Bool
  aws_region : Option String
  send_get_body_as : Option String
  deriving DecidableEq

/-- The five environment variables `main` reads when building argparse
defaults: `ES_HOST`, `ES_PORT`, `ES_USERNAME`, `ES_PASSWORD`, `ES_USE_SSL`. -/
structure Envv where
  es_host : Option String
  es_port : Option Nat
  es_username : Option String
  es_password : Option String
  es_use_ssl : Option Bool
  deriving DecidableEq

/-- The parsed-argument record (`args` in the script), after argparse has
substituted its defaults (environment values for host, port, username,
password and ssl; the literal `GET` for `send_get_body_as`). -/
structure Args where
  host : Option String
  port : Option Nat
  username : Option String
  password : Option String
  urlPref : Option String
  ssl : Option Bool
  verify_certs : Option Bool
  aws_region : Option String
  send_get_body_as : String
  deriving DecidableEq

/-- The YAML config file contents (`data` in the script); `none` models an
absent key, so `data.get(k)` is the identity on these fields. -/
structure FileData where
  es_host : Option String
  es_port : Option Nat
  es_username : Option String
  es_password : Option String
  es_url_pref : Option String
  use_ssl : Option Bool
  verify_certs : Option Bool
  aws_region : Option String
  send_get_body_as : Option String
  ca_certs : Option String
  client_cert : Option String
  client_key : Option String
  deriving DecidableEq

/-- The fully resolved configuration of the file-present branch.  Fields the
script may leave as Python `None` are `Option`s. -/
structure ResolvedConfig where
  host : Option String
  port : Option Nat
  username : Option String
  password : Option String
  urlPref : String
  use_ssl : Option Bool
  verify_certs : Bool
  aws_region : Option String
  sendGetBodyAs : String
  ca_certs : Option String
  client_cert : Option String
  client_key : Option String
  deriving DecidableEq

/-- Python `a if a else b` on an optional string: `a` wins only when it is
present and non-empty (truthiness). -/
def pyOr (a b : Option String) : Option String :=
  match a with
  | some s => if s = "" then b else some s
  | none => b

/-- Python `a if a else b` on an optional integer: `a` wins only when it is
present and non-zero (truthiness). -/
def pyOrNat (a b : Option Nat) : Option Nat :=
  match a with
  | some n => if n = 0 then b else some n
  | none => b

/-- The argparse stage of `main`: command-line value if given, else the
installed default (an environment variable for the five `ES_*`-backed
options, `GET` for `send_get_body_as`, `None` elsewhere). -/
def parseArgs (c : Cli) (e : Envv) : Args :=
  ⟨c.host.orElse (fun _ => e.es_host),
   c.port.orElse (fun _ => e.es_port),
   c.username.orElse (fun _ => e.es_username),
   c.password.orElse (fun _ => e.es_password),
   c.urlPref,
   c.ssl.orElse (fun _ => e.es_use_ssl),
   c.verify_certs,
   c.aws_region,
   c.send_get_body_as.getD "GET"⟩

/-- The file-present branch of `main` (`if filename:`), line for line:
truthiness merges for host, port, username and password; `is not None`
merges for the url, ssl and certificate-verification options;
`data.get(..)` only (no command-line fallback) for the aws region, the body
method and the three certificate paths.  For certificate verification the
source computes `data.get(..) is not False`. -/
def resolveFileMode (a : Args) (f : FileData) : ResolvedConfig :=
  ⟨pyOr a.host f.es_host,
   pyOrNat a.port f.es_port,
   pyOr a.username f.es_username,
   pyOr a.password f.es_password,
   (match a.urlPref with
    | some u => u
    | none => f.es_url_pref.getD ""),
   a.ssl.orElse (fun _ => f.use_ssl),
   (match a.verify_certs with
    | some b => b
    | none =>
      match f.verify_certs with
      | some false => false
      | _ => true),
   f.aws_region,
   f.send_get_body_as.getD "GET",
   f.ca_certs,
   f.client_cert,
   f.client_key⟩

/-- An environment with none of the five variables set. -/
def envNone : Envv := ⟨none, none, none, none, none⟩

/-- End-to-end file-present resolution: argparse, then the merge with the
config file. -/
def resolveCF (c : Cli) (e : Envv) (f : FileData) : ResolvedConfig :=
  resolveFileMode (parseArgs c e) f

/-- The `filename` selection at the top of `main`: the fixed name
`config.yaml` when it exists, else the user-given `--config` path when that
exists, else the empty string (which sends `main` into the interactive
branch). -/
def selectConfigFile (isfile : String → Bool) (argsConfig : String) : String :=
  if isfile "config.yaml" then "config.yaml"
  else if isfile argsConfig then argsConfig
  else ""

/-- Resolution of the target index name: the `--index` value when given,
else the interactive answer; then `if not index:` replaces exactly the
empty string with `elastalert_status`. -/
def resolveTargetIndex (argsIndex : Option String) (answer : String) : String :=
  let index :=
    match argsIndex with
    | some s => s
    | none => answer
  if index = "" then "elastalert_status" else index

/-- The authentication strategy attached to the client, one of no
authentication, basic authentication, or an AWS signed request. -/
inductive AuthStrategy where
  | noAuth : AuthStrategy
  | basicAuth : String → String → AuthStrategy
  | awsSignedRequest : String → String → AuthStrategy
  deriving DecidableEq

/-- Modelled from the spec: the `Auth` class (file `auth.py`, imported by
the script but absent from the sources) selects the strategy in order: if
the aws region is set, an AWS signed request built from that region and the
supplied profile (an absent profile meaning environment-default profile
resolution); else if a username is set and non-empty, basic authentication
with the username and (possibly empty) password; else no authentication. -/
def Auth.build (username password aws_region profile_name : Option String) :
    AuthStrategy :=
  match aws_region with
  | some r => AuthStrategy.awsSignedRequest r (profile_name.getD "")
  | none =>
    match username with
    | some u => if u = "" then AuthStrategy.noAuth
                else AuthStrategy.basicAuth u (password.getD "")
    | none => AuthStrategy.noAuth

/-- One outbound effect of the provisioning part of `main`: the existence
check, an index creation, the settle sleep, a mapping application, a line
printed to the operator, or the bulk reindex. -/
inductive ESCall where
  | existsCheck : String → ESCall
  | createIndex : String → ESCall
  | sleepSec : Nat → ESCall
  | putMapping : String → String → ESCall
  | printMsg : String → ESCall
  | reindex : String → String → ESCall
  deriving DecidableEq

/-- The cluster as the script observes it: whether the existence check
answers yes, and whether each creation, mapping or reindex call succeeds
(a failing call raises, which aborts the script). -/
structure World where
  indexExists : String → Bool
  createOk : String → Bool
  mappingOk : String → Bool
  reindexOk : String → String → Bool

/-- The five fixed index names created by `main`, in source order. -/
def indexNames : List String :=
  ["elastalert", "elastalert_status", "elastalert_silence",
   "elastalert_error", "elastalert_past"]

/-- The five `put_mapping` calls of `main`, in source order, as pairs of
index name and document type. -/
def mappingSpecs : List (String × String) :=
  [("elastalert", "elastalert"),
   ("elastalert_status", "elastalert_status"),
   ("elastalert_silence", "silence"),
   ("elastalert_error", "elastalert_error"),
   ("elastalert_past", "past_elastalert")]

/-- Sequential `es.indices.create` calls: each call is emitted, and a
failure raises, so nothing after the failing call runs. -/
def runCreates (w : World) : List String → List ESCall × Bool
  | [] => ([], true)
  | n :: rest =>
    if w.createOk n then
      let p := runCreates w rest
      (ESCall.createIndex n :: p.1, p.2)
    else ([ESCall.createIndex n], false)

/-- Sequential `es.indices.put_mapping` calls with the same abort-on-raise
behaviour as `runCreates`. -/
def runMappings (w : World) : List (String × String) → List ESCall × Bool
  | [] => ([], true)
  | p :: rest =>
    if w.mappingOk p.1 then
      let q := runMappings w rest
      (ESCall.putMapping p.1 p.2 :: q.1, q.2)
    else ([ESCall.putMapping p.1 p.2], false)

/-- A single-quote character, used by the copy message the script formats. -/
def squote : String := (Char.ofNat 39).toString

/-- The message printed before the bulk copy, as formatted by the script. -/
def copyMsg (old_index index : String) : String :=
  "Copying all data from old index " ++ squote ++ old_index ++ squote ++
  " to new index " ++ squote ++ index ++ squote

/-- The provisioning tail of `main`, from the existence check on: the trace
of outbound calls and prints, and `true` when the script reached its normal
end (the early skip return included), `false` when an uncaught client
exception aborted it. -/
def provision (w : World) (index old_index : String) : List ESCall × Bool :=
  if w.indexExists index then
    ([ESCall.existsCheck index,
      ESCall.printMsg ("Index " ++ index ++ " already exists. Skipping index creation.")],
     true)
  else
    let c := runCreates w indexNames
    if c.2 then
      let m := runMappings w mappingSpecs
      let t1 := ESCall.existsCheck index :: c.1 ++ [ESCall.sleepSec 2] ++ m.1
      if m.2 then
        let t2 := t1 ++ [ESCall.printMsg ("New index " ++ index ++ " created")]
        if old_index = "" then
          (t2 ++ [ESCall.printMsg "Done!"], true)
        else
          let t3 := t2 ++ [ESCall.printMsg (copyMsg old_index index),
                           ESCall.reindex old_index index]
          if w.reindexOk old_index index then
            (t3 ++ [ESCall.printMsg "Done!"], true)
          else (t3, false)
      else (t1, false)
    else (ESCall.existsCheck index :: c.1, false)

/-- The part of the trace that follows the settle sleep when all five
creation calls succeeded: the mapping calls up to the first failure, and on
full success the confirmation print and the optional copy steps. -/
def afterSettle (w : World) (index old_index : String) : List ESCall :=
  let m := runMappings w mappingSpecs
  if m.2 then
    if old_index = "" then
      m.1 ++ [ESCall.printMsg ("New index " ++ index ++ " created"),
              ESCall.printMsg "Done!"]
    else
      if w.reindexOk old_index index then
        m.1 ++ [ESCall.printMsg ("New index " ++ index ++ " created"),
                ESCall.printMsg (copyMsg old_index index),
                ESCall.reindex old_index index,
                ESCall.printMsg "Done!"]
      else
        m.1 ++ [ESCall.printMsg ("New index " ++ index ++ " created"),
                ESCall.printMsg (copyMsg old_index index),
                ESCall.reindex old_index index]
  else m.1

/-- Recogniser for the bulk-copy call. -/
def isReindexCall : ESCall → Bool
  | ESCall.reindex _ _ => true
  | _ => false

/-- Recogniser for the three kinds of mutating calls: creation, mapping
application, bulk copy. -/
def isMutating : ESCall → Bool
  | ESCall.createIndex _ => true
  | ESCall.putMapping _ _ => true
  | ESCall.reindex _ _ => true
  | _ => false

/-- Recogniser for mapping-application calls. -/
def isMappingCall : ESCall → Bool
  | ESCall.putMapping _ _ => true
  | _ => false

/-- A cluster in which every index exists and every call succeeds. -/
def wSkip : World := ⟨fun _ => true, fun _ => true, fun _ => true, fun _ _ => true⟩

/-- A cluster in which no index exists and every call succeeds. -/
def wOk : World := ⟨fun _ => false, fun _ => true, fun _ => true, fun _ _ => true⟩

/-- A cluster in which no index exists and the creation of
`elastalert_status` (the second creation call) raises. -/
def wC3 : World :=
  ⟨fun _ => false, fun n => !(n == "elastalert_status"), fun _ => true, fun _ _ => true⟩

/-- A cluster in which no index exists and the creation of
`elastalert_silence` (the third creation call) raises. -/
def wC7 : World :=
  ⟨fun _ => false, fun n => !(n == "elastalert_silence"), fun _ => true, fun _ _ => true⟩

/-- Command line with no option given at all. -/
def cliNone : Cli := ⟨none, none, none, none, none, none, none, none, none⟩

/-- Command line that only supplies `--aws-region us-west-2`. -/
def cliA : Cli := ⟨none, none, none, none, none, none, none, some "us-west-2", none⟩

/-- Config file that sets only the host and port keys. -/
def fA : FileData :=
  ⟨some "fh", some 9200, none, none, none, none, none, none, none, none, none, none⟩

/-- Command line supplying host, username, ssl, an aws region and a body
method. -/
def cliW : Cli :=
  ⟨some "clihost", none, some "cliuser", none, none, some true, none,
   some "cli-region", some "POST"⟩

/-- Config file supplying every key, with values distinct from `cliW`. -/
def fW : FileData :=
  ⟨some "filehost", some 9200, some "fileuser", some "filepw", some "/es",
   some false, some false, some "file-region", some "source", some "/ca.pem",
   none, none⟩

/-- Config file that sets `use_ssl: true` and omits `verify_certs`. -/
def f6 : FileData :=
  ⟨none, none, none, none, none, some true, none, none, none, none, none, none⟩

/-- Environment with all five variables set. -/
def envFive (h : String) (p : Nat) (u pw : String) (b : Bool) : Envv :=
  ⟨some h, some p, some u, some pw, some b⟩

/-- Command line supplying the same five values as flags instead. -/
def cliFive (h : String) (p : Nat) (u pw : String) (b : Bool) : Cli :=
  ⟨some h, some p, some u, some pw, none, some b, none, none, none⟩

/-- Config file whose host, port, username, password and ssl keys conflict
with the environment values used in the environment-override witness. -/
def fX : FileData :=
  ⟨some "filehost", some 9300, some "fileuser", some "filepw", none,
   some true, none, none, none, none, none, none⟩

/-- A file system on which exactly `config.yaml` exists. -/
def isfileW : String → Bool := fun s => s == "config.yaml"

lemma runCreates_ok (w : World) (l : List String)
    (h : ∀ n ∈ l, w.createOk n = true) :
    runCreates w l = (l.map ESCall.createIndex, true) := by
  induction l with
  | nil => rfl
  | cons a t ih =>
    have ha : w.createOk a = true := h a (by simp)
    have ht : ∀ n ∈ t, w.createOk n = true := fun n hn => h n (by simp [hn])
    simp [runCreates, ha, ih ht]

lemma runMappings_ok (w : World) (l : List (String × String))
    (h : ∀ p ∈ l, w.mappingOk p.1 = true) :
    runMappings w l = (l.map (fun p => ESCall.putMapping p.1 p.2), true) := by
  induction l with
  | nil => rfl
  | cons a t ih =>
    have ha : w.mappingOk a.1 = true := h a (by simp)
    have ht : ∀ p ∈ t, w.mappingOk p.1 = true := fun p hp => h p (by simp [hp])
    simp [runMappings, ha, ih ht]

lemma runCreates_no_reindex (w : World) (l : List String) (s d : String) :
    ESCall.reindex s d ∉ (runCreates w l).1 := by
  induction l with
  | nil => simp [runCreates]
  | cons a t ih =>
    cases ha : w.createOk a <;> simp [runCreates, ha, ih]

lemma runMappings_no_reindex (w : World) (l : List (String × String)) (s d : String) :
    ESCall.reindex s d ∉ (runMappings w l).1 := by
  induction l with
  | nil => simp [runMappings]
  | cons a t ih =>
    cases ha : w.mappingOk a.1 <;> simp [runMappings, ha, ih]

lemma provision_shape (w : World) (index old_index : String)
    (hne : w.indexExists index = false)
    (hc : ∀ n ∈ indexNames, w.createOk n = true) :
    (provision w index old_index).1 =
      ESCall.existsCheck index :: indexNames.map ESCall.createIndex
        ++ [ESCall.sleepSec 2] ++ afterSettle w index old_index := by
  simp only [provision, afterSettle, hne, runCreates_ok w indexNames hc,
    Bool.false_eq_true, if_false]
  cases hm : (runMappings w mappingSpecs).2 <;>
    by_cases ho : old_index = "" <;>
      simp [hm, ho] <;>
        cases hr : w.reindexOk old_index index <;> simp [hr]

lemma provision_empty_old_no_reindex (w : World) (index s d : String) :
    ESCall.reindex s d ∉ (provision w index "").1 := by
  have hcr := runCreates_no_reindex w indexNames s d
  have hmp := runMappings_no_reindex w mappingSpecs s d
  simp only [provision]
  split
  · simp
  · split
    · split
      · simp_all
      · simp_all
    · simp_all

lemma provision_empty_old_any_reindex (w : World) (index : String) :
    (provision w index "").1.any isReindexCall = false := by
  rw [List.any_eq_false]
  intro x hx
  cases x
  case reindex s d => exact absurd hx (provision_empty_old_no_reindex w index s d)
  all_goals simp [isReindexCall]

/-- C2: when the resolved target index already exists, the run performs no
creation, mapping or bulk-copy call (even when an old index to copy from
was given), prints the line
`Index <name> already exists. Skipping index creation.` and terminates
successfully. -/
theorem c2_existing_index_skips (w : World) (index old_index : String)
    (h : w.indexExists index = true) :
    provision w index old_index =
      ([ESCall.existsCheck index,
        ESCall.printMsg ("Index " ++ index ++ " already exists. Skipping index creation.")],
       true) ∧
    (provision w index old_index).1.any isMutating = false := by
  have htr : provision w index old_index =
      ([ESCall.existsCheck index,
        ESCall.printMsg ("Index " ++ index ++ " already exists. Skipping index creation.")],
       true) := by
    simp [provision, h]
  refine ⟨htr, ?_⟩
  rw [htr]
  simp [isMutating]

/-- C2 witness: a concrete cluster where index `foo` exists and an old
index `bar` was given. -/
theorem c2_existing_index_skips_witness :
    wSkip.indexExists "foo" = true ∧
    provision wSkip "foo" "bar" =
      ([ESCall.existsCheck "foo",
        ESCall.printMsg "Index foo already exists. Skipping index creation."],
       true) :=
  ⟨rfl, (c2_existing_index_skips wSkip "foo" "bar" rfl).1⟩

/-- C3 (evaluation of the code at the failing input): in a cluster where
the target does not exist and the second creation call
(`elastalert_status`) raises, the run aborts at that call: the remaining
three creation calls are never issued and no mapping call is issued, so
the five creation calls are not independent. -/
theorem c3_create_failure_aborts_run :
    provision wC3 "foo" "" =
      ([ESCall.existsCheck "foo", ESCall.createIndex "elastalert",
        ESCall.createIndex "elastalert_status"], false) ∧
    ESCall.createIndex "elastalert_silence" ∉ (provision wC3 "foo" "").1 ∧
    (provision wC3 "foo" "").1.any isMappingCall = false :=
  ⟨by decide, by decide, by decide⟩

/-- C4 counterexample: old index `bar` is non-empty, yet because the target
`foo` already exists the bulk-copy primitive is not invoked, so the claimed
equivalence (invoked iff the old index is non-empty) is false. -/
theorem c4_bulk_copy_counterexample :
    "bar" ≠ "" ∧ wSkip.indexExists "foo" = true ∧
    (provision wSkip "foo" "bar").1.any isReindexCall = false :=
  ⟨by decide, rfl, by decide⟩

/-- C4 (amended): when the old index is unset or empty the bulk-copy
primitive is never invoked, in any run; and in a run that passes the
existence check and in which every creation and mapping call succeeds, a
non-empty old index leads to exactly one bulk-copy invocation, from the old
index into the resolved target index, issued only after all five
mapping-application calls. -/
theorem c4_bulk_copy_amended (w : World) (index old_index : String)
    (hne : w.indexExists index = false)
    (hc : ∀ n ∈ indexNames, w.createOk n = true)
    (hm : ∀ p ∈ mappingSpecs, w.mappingOk p.1 = true)
    (ho : old_index ≠ "") :
    (∀ (w2 : World) (i : String), (provision w2 i "").1.any isReindexCall = false) ∧
    (provision w index old_index).1 =
      ESCall.existsCheck index :: indexNames.map ESCall.createIndex
        ++ [ESCall.sleepSec 2]
        ++ mappingSpecs.map (fun p => ESCall.putMapping p.1 p.2)
        ++ [ESCall.printMsg ("New index " ++ index ++ " created"),
            ESCall.printMsg (copyMsg old_index index),
            ESCall.reindex old_index index]
        ++ (if w.reindexOk old_index index then [ESCall.printMsg "Done!"] else []) := by
  constructor
  · exact fun w2 i => provision_empty_old_any_reindex w2 i
  · rw [provision_shape w index old_index hne hc]
    simp only [afterSettle, runMappings_ok w mappingSpecs hm, ho, if_neg]
    cases hr : w.reindexOk old_index index <;> simp [hr, ho]

/-- C4 witness: concrete run (cluster with nothing existing, every call
succeeding, target `foo`, old index `bar`). -/
theorem c4_bulk_copy_witness :
    wOk.indexExists "foo" = false ∧ "bar" ≠ "" ∧
    (provision wOk "foo" "bar").1 =
      ESCall.existsCheck "foo" :: indexNames.map ESCall.createIndex
        ++ [ESCall.sleepSec 2]
        ++ mappingSpecs.map (fun p => ESCall.putMapping p.1 p.2)
        ++ [ESCall.printMsg "New index foo created",
            ESCall.printMsg (copyMsg "bar" "foo"),
            ESCall.reindex "bar" "foo"]
        ++ [ESCall.printMsg "Done!"] :=
  ⟨rfl, by decide,
   ((c4_bulk_copy_amended wOk "foo" "bar" rfl (by decide) (by decide) (by decide)).2).trans
     (by simp [wOk])⟩

/-- C7 counterexample: a run in which the target does not already exist but
the third creation call raises: the fourth and fifth indices are never
created and no mapping call is issued, so the five indices are not all
created in every such run. -/
theorem c7_creation_counterexample :
    wC7.indexExists "foo" = false ∧
    ESCall.createIndex "elastalert_error" ∉ (provision wC7 "foo" "").1 ∧
    ESCall.createIndex "elastalert_past" ∉ (provision wC7 "foo" "").1 ∧
    (provision wC7 "foo" "").1.any isMappingCall = false :=
  ⟨rfl, by decide, by decide, by decide⟩

/-- C7 (amended): when the target index does not already exist and every
creation call succeeds, all five fixed indices are created unconditionally
(whatever the target name), in the fixed source order, and the fixed
2-second settle sleep follows the five creation calls before anything else;
every mapping-application call of the run lies in the remainder of the
trace after that sleep, since the prefix contains no mapping call. -/
theorem c7_creation_amended (w : World) (index old_index : String)
    (hne : w.indexExists index = false)
    (hc : ∀ n ∈ indexNames, w.createOk n = true) :
    ((provision w index old_index).1 =
      ESCall.existsCheck index :: ESCall.createIndex "elastalert"
        :: ESCall.createIndex "elastalert_status"
        :: ESCall.createIndex "elastalert_silence"
        :: ESCall.createIndex "elastalert_error"
        :: ESCall.createIndex "elastalert_past"
        :: ESCall.sleepSec 2 :: afterSettle w index old_index) ∧
    ∀ i d, ESCall.putMapping i d ∉
      [ESCall.existsCheck index, ESCall.createIndex "elastalert",
       ESCall.createIndex "elastalert_status", ESCall.createIndex "elastalert_silence",
       ESCall.createIndex "elastalert_error", ESCall.createIndex "elastalert_past",
       ESCall.sleepSec 2] := by
  constructor
  · rw [provision_shape w index old_index hne hc]
    simp [indexNames]
  · intro i d
    simp

/-- C7 witness: concrete successful run with target `foo` and no old
index. -/
theorem c7_creation_witness :
    wOk.indexExists "foo" = false ∧
    (provision wOk "foo" "").1 =
      ESCall.existsCheck "foo" :: ESCall.createIndex "elastalert"
        :: ESCall.createIndex "elastalert_status"
        :: ESCall.createIndex "elastalert_silence"
        :: ESCall.createIndex "elastalert_error"
        :: ESCall.createIndex "elastalert_past"
        :: ESCall.sleepSec 2 :: afterSettle wOk "foo" "" :=
  ⟨rfl, (c7_creation_amended wOk "foo" "" rfl (by decide)).1⟩

lemma orElse_none_right {α : Type} (o : Option α) : (o.orElse fun _ => none) = o := by
  cases o <;> rfl

lemma parseArgs_envNone (c : Cli) :
    parseArgs c envNone =
      ⟨c.host, c.port, c.username, c.password, c.urlPref, c.ssl, c.verify_certs,
       c.aws_region, c.send_get_body_as.getD "GET"⟩ := by
  simp [parseArgs, envNone, orElse_none_right]

lemma pyOr_eq (a b : Option String) (ha : a ≠ some "") :
    pyOr a b = a.orElse (fun _ => b) := by
  cases a with
  | none => rfl
  | some s =>
    have hs : s ≠ "" := by intro h; exact ha (by rw [h])
    simp [pyOr, hs, Option.orElse]

lemma pyOrNat_eq (a b : Option Nat) (ha : a ≠ some 0) :
    pyOrNat a b = a.orElse (fun _ => b) := by
  cases a with
  | none => rfl
  | some n =>
    have hn : n ≠ 0 := by intro h; exact ha (by rw [h])
    simp [pyOrNat, hn, Option.orElse]

/-- C1 counterexample: `--aws-region us-west-2` on the command line with a
config file that has no `aws_region` key: the resolved region is the
default `none`, not the supplied command-line value, because the
file-present branch reads the region from the file only. -/
theorem c1_precedence_counterexample :
    cliA.aws_region = some "us-west-2" ∧
    (resolveCF cliA envNone fA).aws_region = none ∧
    (resolveCF cliA envNone fA).aws_region ≠ cliA.aws_region :=
  ⟨rfl, rfl, by decide⟩

/-- C1 (amended): in file-present mode with none of the five `ES_*`
environment variables set, the fields host, port, username, password,
urlPrefix, useSsl and verifyCerts each resolve to the command-line value
when one was supplied (non-empty for host, username and password, non-zero
for port, since the source merges them by Python truthiness), else the
value from the file, else the documented default; but awsRegion and
sendGetBodyAs are always taken from the file (else their defaults), the
command-line `--aws-region` and `--send_get_body_as` values being ignored
in this mode; caCerts, clientCert and clientKey come from the file alone. -/
theorem c1_precedence_amended (cli : Cli) (f : FileData)
    (hh : cli.host ≠ some "") (hp : cli.port ≠ some 0)
    (hu : cli.username ≠ some "") (hw : cli.password ≠ some "") :
    (resolveCF cli envNone f).host = cli.host.orElse (fun _ => f.es_host) ∧
    (resolveCF cli envNone f).port = cli.port.orElse (fun _ => f.es_port) ∧
    (resolveCF cli envNone f).username = cli.username.orElse (fun _ => f.es_username) ∧
    (resolveCF cli envNone f).password = cli.password.orElse (fun _ => f.es_password) ∧
    (resolveCF cli envNone f).urlPref = cli.urlPref.getD (f.es_url_pref.getD "") ∧
    (resolveCF cli envNone f).use_ssl = cli.ssl.orElse (fun _ => f.use_ssl) ∧
    (resolveCF cli envNone f).verify_certs = cli.verify_certs.getD (f.verify_certs.getD true) ∧
    (resolveCF cli envNone f).aws_region = f.aws_region ∧
    (resolveCF cli envNone f).sendGetBodyAs = f.send_get_body_as.getD "GET" ∧
    (resolveCF cli envNone f).ca_certs = f.ca_certs ∧
    (resolveCF cli envNone f).client_cert = f.client_cert ∧
    (resolveCF cli envNone f).client_key = f.client_key := by
  rw [resolveCF, parseArgs_envNone]
  refine ⟨pyOr_eq _ _ hh, pyOrNat_eq _ _ hp, pyOr_eq _ _ hu, pyOr_eq _ _ hw,
    ?_, rfl, ?_, rfl, rfl, rfl, rfl, rfl⟩
  · cases cli.urlPref <;> rfl
  · cases cli.verify_certs with
    | some b => rfl
    | none =>
      simp only [resolveFileMode]
      cases hfv : f.verify_certs with
      | none => rfl
      | some b => cases b <;> rfl

/-- C1 witness: a concrete command line and file; command-line values win
where supplied (host, username, useSsl), file values fill the rest, and the
region and body method come from the file despite the command line naming
others. -/
theorem c1_precedence_witness :
    cliW.host ≠ some "" ∧ cliW.port ≠ some 0 ∧
    cliW.username ≠ some "" ∧ cliW.password ≠ some "" ∧
    (resolveCF cliW envNone fW).host = some "clihost" ∧
    (resolveCF cliW envNone fW).port = some 9200 ∧
    (resolveCF cliW envNone fW).username = some "cliuser" ∧
    (resolveCF cliW envNone fW).password = some "filepw" ∧
    (resolveCF cliW envNone fW).urlPref = "/es" ∧
    (resolveCF cliW envNone fW).use_ssl = some true ∧
    (resolveCF cliW envNone fW).verify_certs = false ∧
    (resolveCF cliW envNone fW).aws_region = some "file-region" ∧
    (resolveCF cliW envNone fW).sendGetBodyAs = "source" ∧
    (resolveCF cliW envNone fW).ca_certs = some "/ca.pem" ∧
    (resolveCF cliW envNone fW).client_cert = none ∧
    (resolveCF cliW envNone fW).client_key = none := by
  obtain ⟨a1, a2, a3, a4, a5, a6, a7, a8, a9, a10, a11, a12⟩ :=
    c1_precedence_amended cliW fW (by decide) (by decide) (by decide) (by decide)
  exact ⟨by decide, by decide, by decide, by decide,
    a1, a2, a3, a4, a5, a6, a7, a8, a9, a10, a11, a12⟩

/-- C5: whenever the aws region is set, the strategy attached to the client
is the AWS signed-request strategy built from that region and the supplied
profile, and it is never basic authentication, even when a username is also
set. -/
theorem c5_aws_region_auth (username password profile_name : Option String)
    (region : String) :
    Auth.build username password (some region) profile_name =
      AuthStrategy.awsSignedRequest region (profile_name.getD "") ∧
    ∀ u p, Auth.build username password (some region) profile_name ≠
      AuthStrategy.basicAuth u p := by
  refine ⟨rfl, ?_⟩
  intro u p h
  simp [Auth.build] at h

/-- C5 witness: a username and password are supplied together with a
region; the strategy is the signed-request one and not basic
authentication for those credentials. -/
theorem c5_aws_region_auth_witness :
    Auth.build (some "user1") (some "pw1") (some "us-east-1") (some "prof1") =
      AuthStrategy.awsSignedRequest "us-east-1" "prof1" ∧
    Auth.build (some "user1") (some "pw1") (some "us-east-1") (some "prof1") ≠
      AuthStrategy.basicAuth "user1" "pw1" :=
  ⟨(c5_aws_region_auth (some "user1") (some "pw1") (some "prof1") "us-east-1").1,
   (c5_aws_region_auth (some "user1") (some "pw1") (some "prof1") "us-east-1").2
     "user1" "pw1"⟩

/-- C6: in file-present mode, when the file sets `use_ssl: true`, omits
`verify_certs`, and neither certificate-verification flag is on the command
line, the resolved useSsl is true and the resolved verifyCerts is true;
moreover (with no such flag given) verifyCerts resolves to false only when
the file explicitly sets `verify_certs` to false. -/
theorem c6_verify_certs_absent (cli : Cli) (f : FileData)
    (hssl : cli.ssl = none) (hvc : cli.verify_certs = none)
    (hfs : f.use_ssl = some true) (hfv : f.verify_certs = none) :
    (resolveCF cli envNone f).use_ssl = some true ∧
    (resolveCF cli envNone f).verify_certs = true ∧
    ∀ (f2 : FileData), f2.verify_certs ≠ some false →
      (resolveCF cli envNone f2).verify_certs = true := by
  refine ⟨?_, ?_, ?_⟩
  · rw [resolveCF, parseArgs_envNone]
    simp [resolveFileMode, hssl, hfs, Option.orElse]
  · rw [resolveCF, parseArgs_envNone]
    simp [resolveFileMode, hvc, hfv]
  · intro f2 h2
    rw [resolveCF, parseArgs_envNone]
    simp only [resolveFileMode, hvc]

/-- C6 witness: empty command line, file with `use_ssl: true` and no
`verify_certs` key. -/
theorem c6_verify_certs_absent_witness :
    cliNone.ssl = none ∧ cliNone.verify_certs = none ∧
    f6.use_ssl = some true ∧ f6.verify_certs = none ∧
    (resolveCF cliNone envNone f6).use_ssl = some true ∧
    (resolveCF cliNone envNone f6).verify_certs = true := by
  have h := c6_verify_certs_absent cliNone f6 rfl rfl rfl rfl
  exact ⟨rfl, rfl, rfl, rfl, h.1, h.2.1⟩

/-- C8: `config.yaml` in the working directory wins when it exists, even
over a different user-supplied path; else the user-supplied path is used
when it exists; else the empty result sends `main` into the pure
interactive/CLI branch. -/
theorem c8_config_file_selection (isfile : String → Bool) (argsConfig : String) :
    (isfile "config.yaml" = true → selectConfigFile isfile argsConfig = "config.yaml") ∧
    (isfile "config.yaml" = false → isfile argsConfig = true →
      selectConfigFile isfile argsConfig = argsConfig) ∧
    (isfile "config.yaml" = false → isfile argsConfig = false →
      selectConfigFile isfile argsConfig = "") :=
  ⟨fun h1 => by simp [selectConfigFile, h1],
   fun h1 h2 => by simp [selectConfigFile, h1, h2],
   fun h1 h2 => by simp [selectConfigFile, h1, h2]⟩

/-- C8 witness: `config.yaml` exists and the user passed
`--config other.yaml`; the fixed name wins. -/
theorem c8_config_file_selection_witness :
    isfileW "config.yaml" = true ∧ "other.yaml" ≠ "config.yaml" ∧
    selectConfigFile isfileW "other.yaml" = "config.yaml" :=
  ⟨by decide, by decide,
   (c8_config_file_selection isfileW "other.yaml").1 (by decide)⟩

/-- C9 counterexample: a blank (whitespace-only) interactive answer, here a
single space, is kept verbatim: the resolved target index is that space,
not `elastalert_status`, because the `if not index` test of the source
replaces only the empty string. -/
theorem c9_default_index_counterexample :
    (" ").toList.all Char.isWhitespace = true ∧ " " ≠ "" ∧
    resolveTargetIndex none " " = " " ∧
    resolveTargetIndex none " " ≠ "elastalert_status" :=
  ⟨by decide, by decide, rfl, by decide⟩

/-- C9 (amended): when the interactive answer is exactly the empty string
the resolved target index is the literal `elastalert_status`; any non-empty
answer (whitespace-only ones included) is used verbatim; and the resolved
target index is never the empty string. -/
theorem c9_default_index_amended :
    (∀ answer : String, resolveTargetIndex none answer =
      if answer = "" then "elastalert_status" else answer) ∧
    (∀ (argsIndex : Option String) (answer : String),
      resolveTargetIndex argsIndex answer ≠ "") := by
  constructor
  · intro answer
    rfl
  · intro a ans
    cases a with
    | some s =>
      by_cases hs : s = "" <;> simp [resolveTargetIndex, hs]
    | none =>
      by_cases hs : ans = "" <;> simp [resolveTargetIndex, hs]

/-- C9 witness: the empty answer resolves to the default, and a concrete
non-empty answer is kept. -/
theorem c9_default_index_witness :
    resolveTargetIndex none "" = "elastalert_status" ∧
    "myindex" ≠ "" ∧ resolveTargetIndex none "myindex" = "myindex" :=
  ⟨(c9_default_index_amended.1 "").trans (by decide),
   by decide,
   (c9_default_index_amended.1 "myindex").trans (by decide)⟩

/-- C10: the five environment variables are installed as argparse defaults,
so an environment-set value yields the very same parsed-argument record as
the corresponding command-line flag, and in file-present mode it therefore
overrides the corresponding config-file value instead of serving only as an
interactive fallback. -/
theorem c10_env_overrides_file (h u pw : String) (p : Nat) (b : Bool) (f : FileData)
    (hh : h ≠ "") (hp : p ≠ 0) (hu : u ≠ "") (hpw : pw ≠ "") :
    parseArgs cliNone (envFive h p u pw b) = parseArgs (cliFive h p u pw b) envNone ∧
    (resolveCF cliNone (envFive h p u pw b) f).host = some h ∧
    (resolveCF cliNone (envFive h p u pw b) f).port = some p ∧
    (resolveCF cliNone (envFive h p u pw b) f).username = some u ∧
    (resolveCF cliNone (envFive h p u pw b) f).password = some pw ∧
    (resolveCF cliNone (envFive h p u pw b) f).use_ssl = some b := by
  refine ⟨rfl, ?_, ?_, ?_, ?_, rfl⟩
  · show pyOr (some h) f.es_host = some h
    simp [pyOr, hh]
  · show pyOrNat (some p) f.es_port = some p
    simp [pyOrNat, hp]
  · show pyOr (some u) f.es_username = some u
    simp [pyOr, hu]
  · show pyOr (some pw) f.es_password = some pw
    simp [pyOr, hpw]

/-- C10 witness: all five variables set in the environment, an empty
command line, and a config file that sets conflicting values for all five
keys (including `use_ssl: true` against `ES_USE_SSL=false`): every resolved
value comes from the environment. -/
theorem c10_env_overrides_file_witness :
    "envhost" ≠ "" ∧ (9200 : Nat) ≠ 0 ∧ "envuser" ≠ "" ∧ "envpass" ≠ "" ∧
    fX.es_host = some "filehost" ∧ fX.use_ssl = some true ∧
    (resolveCF cliNone (envFive "envhost" 9200 "envuser" "envpass" false) fX).host =
      some "envhost" ∧
    (resolveCF cliNone (envFive "envhost" 9200 "envuser" "envpass" false) fX).port =
      some 9200 ∧
    (resolveCF cliNone (envFive "envhost" 9200 "envuser" "envpass" false) fX).username =
      some "envuser" ∧
    (resolveCF cliNone (envFive "envhost" 9200 "envuser" "envpass" false) fX).password =
      some "envpass" ∧
    (resolveCF cliNone (envFive "envhost" 9200 "envuser" "envpass" false) fX).use_ssl =
      some false := by
  have h := c10_env_overrides_file "envhost" "envuser" "envpass" 9200 false fX
    (by decide) (by decide) (by decide) (by decide)
  exact ⟨by decide, by decide, by decide, by decide, rfl, rfl,
    h.2.1, h.2.2.1, h.2.2.2.1, h.2.2.2.2.1, h.2.2.2.2.2⟩
